import Mathlib

/-!
Shallow embedding of the signaling server in src/server/server.js.

The server keeps an in-memory map from room code to room state
(participant list, creation time), a set of live sockets (each with
scratch fields roomCode and userName hung on the connection), and a set
of event handlers.  We embed the registry as an association list, a
socket as a record, and every handler as a pure function from server
state and event payload to a new state plus a list of deliveries
(target socket id, message).  JavaScript values that may be undefined
are Option; a JS runtime TypeError is an Except.error.  Timestamps are
naturals (milliseconds); the randomness of Math.random is a parameter.
-/

/-- A participant record as pushed into room.participants. -/
structure Participant where
  socketId : String
  userName : String
deriving DecidableEq, Repr

/-- A room: participants list and creation timestamp. -/
structure Room where
  participants : List Participant
  createdAt : Nat
deriving DecidableEq, Repr

/-- A live socket: its id, the scratch fields the server writes on it
(roomCode, userName), and the broadcast groups it has joined via
socket.join. -/
structure Sock where
  sid : String
  roomCode : Option String
  userName : Option String
  joinedRooms : List String
deriving DecidableEq, Repr

/-- Whole server state: the rooms map and the connected sockets. -/
structure ServerState where
  rooms : List (String × Room)
  socks : List Sock
deriving DecidableEq, Repr

/-- Messages a handler can emit to a socket. -/
inductive Msg where
  | roomJoined (roomCode : String) (participantCount : Nat) (isInitiator : Bool)
  | roomFull (message : String)
  | userJoined (socketId : String) (userName : Option String)
  | existingUser (socketId : String) (userName : String)
  | offerRelay (offer : String) (fromSid : String) (userName : Option String)
  | answerRelay (answer : String) (fromSid : String)
  | iceRelay (candidate : String) (fromSid : String)
  | peerAudioToggle (socketId : String) (isMuted : Bool)
  | peerVideoToggle (socketId : String) (isVideoOff : Bool)
  | peerScreenShare (socketId : String) (isScreenSharing : Bool)
  | chatMsg (text : String) (userName : Option String) (time : String)
  | userLeft (socketId : String) (userName : Option String)
deriving DecidableEq, Repr

/-- One delivery: the target socket id and the message. -/
structure Delivery where
  target : String
  msg : Msg
deriving DecidableEq, Repr

/-- A JavaScript runtime error escaping a handler (uncaught, hence
fatal to the shared process). -/
inductive JsErr where
  | typeError (message : String)
deriving DecidableEq, Repr

/-- JS s.toUpperCase() on ASCII data. -/
def jsUpper (s : String) : String :=
  String.mk (s.data.map Char.toUpper)

/-- JS `v || d` for a string that may be undefined: undefined and the
empty string are falsy. -/
def jsOr (v : Option String) (d : String) : String :=
  match v with
  | none => d
  | some s => if s = "" then d else s

/-- rooms.get on the association list. -/
def lookupRoom (rs : List (String × Room)) (c : String) : Option Room :=
  (rs.find? (fun p => p.1 == c)).map Prod.snd

/-- rooms.set: insert or overwrite the binding for a code. -/
def setRoom (rs : List (String × Room)) (c : String) (r : Room) :
    List (String × Room) :=
  (c, r) :: rs.filter (fun p => !(p.1 == c))

/-- rooms.delete. -/
def deleteRoom (rs : List (String × Room)) (c : String) :
    List (String × Room) :=
  rs.filter (fun p => !(p.1 == c))

/-- The get-or-create step of the join handler: if the code is absent,
install a room with empty participants and the current timestamp. -/
def ensureRoom (rs : List (String × Room)) (c : String) (now : Nat) :
    List (String × Room) :=
  if (lookupRoom rs c).isSome then rs
  else setRoom rs c { participants := [], createdAt := now }

/-- Find a connected socket by id. -/
def getSock (socks : List Sock) (sid : String) : Option Sock :=
  socks.find? (fun s => s.sid == sid)

/-- Update the socket with the given id, if present. -/
def updSock (socks : List Sock) (sid : String) (f : Sock → Sock) :
    List Sock :=
  socks.map (fun s => if s.sid == sid then f s else s)

/-- socket.io membership: a socket is implicitly in the room named by
its own id, plus every room joined via socket.join. -/
def inBroadcastRoom (s : Sock) (r : String) : Bool :=
  s.sid == r || s.joinedRooms.contains r

/-- socket.to(r).emit(m): deliver m to every socket in broadcast room
r other than the sender. -/
def broadcastTo (socks : List Sock) (r : String) (senderSid : String)
    (m : Msg) : List Delivery :=
  (socks.filter (fun s => inBroadcastRoom s r && !(s.sid == senderSid))).map
    (fun s => { target := s.sid, msg := m })

/-- The payload of a join-room event; either field may be undefined. -/
structure JoinPayload where
  roomCode : Option String
  userName : Option String
deriving DecidableEq, Repr

/-- The room-full rejection text from the join handler. -/
def fullMessage : String := "Room is full. Only 2 participants allowed."

/-- The join-room handler (server.js lines 161-208).  Reads
payload.roomCode (TypeError if undefined), uppercases it, get-or-creates
the room, rejects with room-full when it already holds 2 participants,
otherwise joins the broadcast group, appends the participant (name
defaulted via the JS or-operator), stores roomCode and the raw userName
on the socket, acknowledges with room-joined, and when the join made the
count 2 notifies the other occupant (user-joined) and the joiner
(existing-user). -/
def joinRoom (st : ServerState) (sid : String) (payload : JoinPayload)
    (now : Nat) : Except JsErr (ServerState × List Delivery) :=
  match payload.roomCode with
  | none =>
      Except.error (JsErr.typeError
        "Cannot read properties of undefined (reading toUpperCase)")
  | some rc =>
    let normalizedCode := jsUpper rc
    let rooms1 := ensureRoom st.rooms normalizedCode now
    match lookupRoom rooms1 normalizedCode with
    | none =>
        Except.error (JsErr.typeError "room is undefined")
    | some room =>
      if 2 ≤ room.participants.length then
        Except.ok ({ st with rooms := rooms1 },
          [{ target := sid, msg := Msg.roomFull fullMessage }])
      else
        let socks1 := updSock st.socks sid
          (fun s => { s with joinedRooms := s.joinedRooms ++ [normalizedCode] })
        let parts1 := room.participants ++
          [{ socketId := sid, userName := jsOr payload.userName "Anonymous" }]
        let rooms2 := setRoom rooms1 normalizedCode
          { room with participants := parts1 }
        let socks2 := updSock socks1 sid
          (fun s => { s with roomCode := some normalizedCode,
                             userName := payload.userName })
        let st2 : ServerState := { rooms := rooms2, socks := socks2 }
        let ack : Delivery :=
          { target := sid,
            msg := Msg.roomJoined normalizedCode parts1.length
              (parts1.length == 1) }
        if parts1.length == 2 then
          let joinedNotices :=
            broadcastTo socks2 normalizedCode sid
              (Msg.userJoined sid payload.userName)
          match parts1.find? (fun q => !(q.socketId == sid)) with
          | none =>
              Except.error (JsErr.typeError
                "Cannot read properties of undefined (reading socketId)")
          | some otherParticipant =>
              Except.ok (st2,
                [ack] ++ joinedNotices ++
                [{ target := sid,
                   msg := Msg.existingUser otherParticipant.socketId
                     otherParticipant.userName }])
        else
          Except.ok (st2, [ack])

/-- handleDisconnect (server.js lines 281-303): if the socket has a
roomCode, remove it from that room, notify the room with user-left,
delete the room when it became empty, and leave the broadcast group.
The roomCode scratch field is NOT cleared. -/
def handleDisconnect (st : ServerState) (sid : String) :
    ServerState × List Delivery :=
  match getSock st.socks sid with
  | none => (st, [])
  | some sock =>
    match sock.roomCode with
    | none => (st, [])
    | some rc =>
      let result : List (String × Room) × List Delivery :=
        match lookupRoom st.rooms rc with
        | some room =>
          let parts1 := room.participants.filter
            (fun p => !(p.socketId == sid))
          let roomsA := setRoom st.rooms rc { room with participants := parts1 }
          let notices := broadcastTo st.socks rc sid
            (Msg.userLeft sid sock.userName)
          let roomsB := if parts1.length == 0 then deleteRoom roomsA rc
                        else roomsA
          (roomsB, notices)
        | none => (st.rooms, [])
      let socks1 := updSock st.socks sid
        (fun s => { s with joinedRooms := s.joinedRooms.filter (fun r => !(r == rc)) })
      ({ rooms := result.1, socks := socks1 }, result.2)

/-- The disconnect event: run handleDisconnect, then the transport
destroys the socket. -/
def disconnectSock (st : ServerState) (sid : String) :
    ServerState × List Delivery :=
  let r := handleDisconnect st sid
  ({ r.1 with socks := r.1.socks.filter (fun s => !(s.sid == sid)) }, r.2)

/-- The offer handler (server.js lines 210-217): relays to the target
id unconditionally, annotated with the sender id and the raw userName
scratch field.  No roomCode check. -/
def offerHandler (st : ServerState) (sid : String) (toTarget : String)
    (offer : String) : ServerState × List Delivery :=
  match getSock st.socks sid with
  | none => (st, [])
  | some sock =>
      (st, broadcastTo st.socks toTarget sid
        (Msg.offerRelay offer sid sock.userName))

/-- The answer handler (server.js lines 219-225). -/
def answerHandler (st : ServerState) (sid : String) (toTarget : String)
    (answer : String) : ServerState × List Delivery :=
  match getSock st.socks sid with
  | none => (st, [])
  | some _ =>
      (st, broadcastTo st.socks toTarget sid (Msg.answerRelay answer sid))

/-- The ice-candidate handler (server.js lines 227-232). -/
def iceHandler (st : ServerState) (sid : String) (toTarget : String)
    (candidate : String) : ServerState × List Delivery :=
  match getSock st.socks sid with
  | none => (st, [])
  | some _ =>
      (st, broadcastTo st.socks toTarget sid (Msg.iceRelay candidate sid))

/-- toggle-audio (server.js lines 234-241): only acts when the socket
has a roomCode. -/
def toggleAudio (st : ServerState) (sid : String) (isMuted : Bool) :
    ServerState × List Delivery :=
  match getSock st.socks sid with
  | none => (st, [])
  | some sock =>
    match sock.roomCode with
    | none => (st, [])
    | some rc =>
        (st, broadcastTo st.socks rc sid (Msg.peerAudioToggle sid isMuted))

/-- toggle-video (server.js lines 243-250). -/
def toggleVideo (st : ServerState) (sid : String) (isVideoOff : Bool) :
    ServerState × List Delivery :=
  match getSock st.socks sid with
  | none => (st, [])
  | some sock =>
    match sock.roomCode with
    | none => (st, [])
    | some rc =>
        (st, broadcastTo st.socks rc sid (Msg.peerVideoToggle sid isVideoOff))

/-- toggle-screen-share (server.js lines 252-259). -/
def toggleScreenShare (st : ServerState) (sid : String)
    (isScreenSharing : Bool) : ServerState × List Delivery :=
  match getSock st.socks sid with
  | none => (st, [])
  | some sock =>
    match sock.roomCode with
    | none => (st, [])
    | some rc =>
        (st, broadcastTo st.socks rc sid
          (Msg.peerScreenShare sid isScreenSharing))

/-- chat-message (server.js lines 261-269): relays text, the raw
userName scratch field, and a formatted time string. -/
def chatMessage (st : ServerState) (sid : String) (text : String)
    (timeStr : String) : ServerState × List Delivery :=
  match getSock st.socks sid with
  | none => (st, [])
  | some sock =>
    match sock.roomCode with
    | none => (st, [])
    | some rc =>
        (st, broadcastTo st.socks rc sid
          (Msg.chatMsg text sock.userName timeStr))

/-- The code alphabet of generateRoomCode. -/
def codeChars : List Char :=
  "ABCDEFGHIJKLMNOPQRSTUVWXYZ0123456789".data

/-- chars.charAt(Math.floor(Math.random() * chars.length)) for one
random draw, the draw given as a natural below 36. -/
def codeChar (p : Nat) : Char :=
  codeChars.getD (p % 36) 'A'

/-- generateRoomCode (server.js lines 92-100): 8 random draws from the
alphabet with a hyphen inserted after the 4th, the loop unrolled.  The
randomness is passed in as the 8 draws. -/
def generateRoomCode (p0 p1 p2 p3 p4 p5 p6 p7 : Nat) : String :=
  String.mk [codeChar p0, codeChar p1, codeChar p2, codeChar p3, '-',
    codeChar p4, codeChar p5, codeChar p6, codeChar p7]

/-- POST /api/rooms/create (server.js lines 113-122): generate a code
and unconditionally set an empty room under it.  There is no collision
check. -/
def createRoomPost (st : ServerState) (p0 p1 p2 p3 p4 p5 p6 p7 : Nat)
    (now : Nat) : ServerState × String :=
  let roomCode := generateRoomCode p0 p1 p2 p3 p4 p5 p6 p7
  let rooms1 := setRoom st.rooms roomCode { participants := [], createdAt := now }
  ({ st with rooms := rooms1 }, roomCode)

/-- GET /api/rooms/:roomCode (server.js lines 125-138): none encodes
exists:false, some (participantCount, isFull) the exists:true body. -/
def getRoomStatus (st : ServerState) (code : String) :
    Option (Nat × Bool) :=
  (lookupRoom st.rooms (jsUpper code)).map
    (fun r => (r.participants.length, decide (2 ≤ r.participants.length)))

/-- The stale threshold of the reaper, in milliseconds. -/
def staleThreshold : Nat := 30 * 60 * 1000

/-- One reaper tick (server.js lines 306-316): delete every room with
0 participants whose age exceeds the threshold. -/
def cleanupStale (st : ServerState) (now : Nat) : ServerState :=
  { st with rooms := st.rooms.filter (fun p =>
      !(p.2.participants.length == 0 &&
        decide (staleThreshold < now - p.2.createdAt))) }

/-- A new connection: the transport registers a socket with no room
and no name. -/
def connectSock (st : ServerState) (sid : String) : ServerState :=
  { st with socks := st.socks ++
      [{ sid := sid, roomCode := none, userName := none, joinedRooms := [] }] }

/-- One inbound event at the server, from a connection, the REST
facade, or the reaper timer. -/
inductive Op where
  | connect (sid : String)
  | join (sid : String) (roomCode : Option String) (userName : Option String)
      (now : Nat)
  | leaveRoom (sid : String)
  | disconnect (sid : String)
  | createPost (p0 p1 p2 p3 p4 p5 p6 p7 now : Nat)
  | reap (now : Nat)
  | offer (sid toTarget offer : String)
  | answer (sid toTarget answer : String)
  | ice (sid toTarget candidate : String)
  | togAudio (sid : String) (isMuted : Bool)
  | togVideo (sid : String) (isVideoOff : Bool)
  | togShare (sid : String) (isScreenSharing : Bool)
  | chat (sid text timeStr : String)
deriving DecidableEq, Repr

/-- Dispatch one event.  none means an uncaught handler exception
(fatal to the shared process). -/
def step (st : ServerState) : Op → Option (ServerState × List Delivery)
  | Op.connect sid => some (connectSock st sid, [])
  | Op.join sid rc un now =>
    match joinRoom st sid ⟨rc, un⟩ now with
    | Except.ok r => some r
    | Except.error _ => none
  | Op.leaveRoom sid => some (handleDisconnect st sid)
  | Op.disconnect sid => some (disconnectSock st sid)
  | Op.createPost p0 p1 p2 p3 p4 p5 p6 p7 now =>
      some ((createRoomPost st p0 p1 p2 p3 p4 p5 p6 p7 now).1, [])
  | Op.reap now => some (cleanupStale st now, [])
  | Op.offer sid t o => some (offerHandler st sid t o)
  | Op.answer sid t a => some (answerHandler st sid t a)
  | Op.ice sid t c => some (iceHandler st sid t c)
  | Op.togAudio sid b => some (toggleAudio st sid b)
  | Op.togVideo sid b => some (toggleVideo st sid b)
  | Op.togShare sid b => some (toggleScreenShare st sid b)
  | Op.chat sid txt tm => some (chatMessage st sid txt tm)

/-- Run a list of events, returning the final state (none on a crash). -/
def runOps (st : ServerState) : List Op → Option ServerState
  | [] => some st
  | op :: ops =>
    match step st op with
    | none => none
    | some r => runOps r.1 ops

/-- Run a list of events, also collecting the deliveries of each. -/
def runTrace (st : ServerState) : List Op → Option (ServerState × List (List Delivery))
  | [] => some (st, [])
  | op :: ops =>
    match step st op with
    | none => none
    | some r =>
      match runTrace r.1 ops with
      | none => none
      | some r2 => some (r2.1, r.2 :: r2.2)

/-- The empty initial server state. -/
def initState : ServerState := { rooms := [], socks := [] }

/-! ### Registry map lemmas -/

theorem lookupRoom_setRoom_self (rs : List (String × Room)) (c : String)
    (r : Room) : lookupRoom (setRoom rs c r) c = some r := by
  simp [lookupRoom, setRoom, List.find?]

theorem find?_filter_other (rs : List (String × Room)) (c c' : String)
    (h : c ≠ c') :
    (rs.filter (fun p => !(p.1 == c))).find? (fun p => p.1 == c') =
      rs.find? (fun p => p.1 == c') := by
  induction rs with
  | nil => rfl
  | cons a tl ih =>
    cases hk : (a.1 == c) with
    | true =>
      have hk' : (a.1 == c') = false := by
        have ha : a.1 = c := by simpa using hk
        simp [ha, h]
      simp [List.filter_cons, List.find?_cons, hk, hk', ih]
    | false =>
      cases hc2 : (a.1 == c') with
      | true => simp [List.filter_cons, List.find?_cons, hk, hc2]
      | false => simp [List.filter_cons, List.find?_cons, hk, hc2, ih]

theorem lookupRoom_setRoom_ne (rs : List (String × Room)) (c c' : String)
    (r : Room) (h : c ≠ c') :
    lookupRoom (setRoom rs c r) c' = lookupRoom rs c' := by
  have hne : (c == c') = false := by
    simp [h]
  simp [lookupRoom, setRoom, List.find?, hne, find?_filter_other rs c c' h]

theorem mem_setRoom {p : String × Room} {rs : List (String × Room)}
    {c : String} {r : Room} (h : p ∈ setRoom rs c r) :
    p = (c, r) ∨ p ∈ rs := by
  rcases List.mem_cons.mp h with h1 | h1
  · exact Or.inl h1
  · exact Or.inr (List.mem_filter.mp h1).1

theorem lookupRoom_mem {rs : List (String × Room)} {c : String} {r : Room}
    (h : lookupRoom rs c = some r) : ∃ k, (k, r) ∈ rs := by
  unfold lookupRoom at h
  cases hf : rs.find? (fun p => p.1 == c) with
  | none => simp [hf] at h
  | some q =>
    refine ⟨q.1, ?_⟩
    have hq := List.mem_of_find?_eq_some hf
    simp [hf] at h
    rcases h with rfl
    exact hq

theorem lookupRoom_ensureRoom (rs : List (String × Room)) (c : String)
    (now : Nat) :
    lookupRoom (ensureRoom rs c now) c =
      some ((lookupRoom rs c).getD { participants := [], createdAt := now }) := by
  unfold ensureRoom
  cases hl : lookupRoom rs c with
  | none => simp [hl, lookupRoom_setRoom_self]
  | some r => simp [hl]

theorem ensureRoom_of_isSome {rs : List (String × Room)} {c : String}
    {now : Nat} (h : (lookupRoom rs c).isSome) : ensureRoom rs c now = rs := by
  unfold ensureRoom
  simp [h]

/-! ### Socket and broadcast lemmas -/

theorem getSock_updSock_self (socks : List Sock) (sid : String)
    (f : Sock → Sock) (hf : ∀ s, (f s).sid = s.sid) :
    getSock (updSock socks sid f) sid = (getSock socks sid).map f := by
  induction socks with
  | nil => rfl
  | cons a tl ih =>
    by_cases ha : a.sid = sid
    · simp [getSock, updSock, List.find?_cons, ha, hf a]
    · simp only [updSock, getSock, List.map_cons, List.find?_cons] at ih ⊢
      have hb : (a.sid == sid) = false := by simp [ha]
      rw [if_neg (by simp [ha])]
      simp only [hb]
      exact ih

theorem broadcastTo_msg {d : Delivery} {socks : List Sock} {r sender : String}
    {m : Msg} (h : d ∈ broadcastTo socks r sender m) : d.msg = m := by
  unfold broadcastTo at h
  rcases List.mem_map.mp h with ⟨s, _, rfl⟩
  rfl

/-! ### Registry boundedness -/

/-- Every room in the registry holds at most 2 participants. -/
def registryBounded (rs : List (String × Room)) : Prop :=
  ∀ p ∈ rs, p.2.participants.length ≤ 2

theorem registryBounded_nil : registryBounded [] := by
  intro p hp; cases hp

theorem registryBounded_filter {rs : List (String × Room)}
    (h : registryBounded rs) (q : String × Room → Bool) :
    registryBounded (rs.filter q) := by
  intro p hp
  exact h p (List.mem_filter.mp hp).1

theorem registryBounded_setRoom {rs : List (String × Room)} {c : String}
    {r : Room} (h : registryBounded rs) (hr : r.participants.length ≤ 2) :
    registryBounded (setRoom rs c r) := by
  intro p hp
  rcases mem_setRoom hp with rfl | hmem
  · exact hr
  · exact h p hmem

theorem registryBounded_ensureRoom {rs : List (String × Room)} {c : String}
    {now : Nat} (h : registryBounded rs) :
    registryBounded (ensureRoom rs c now) := by
  unfold ensureRoom
  split
  · exact h
  · exact registryBounded_setRoom h (by simp)

theorem registryBounded_lookup {rs : List (String × Room)} {c : String}
    {r : Room} (h : registryBounded rs) (hl : lookupRoom rs c = some r) :
    r.participants.length ≤ 2 := by
  rcases lookupRoom_mem hl with ⟨k, hk⟩
  exact h (k, r) hk

/-! ### Structure of a successful join -/

theorem joinRoom_ok_cases {st : ServerState} {sid : String} {p : JoinPayload}
    {now : Nat} {st' : ServerState} {ds : List Delivery}
    (h : joinRoom st sid p now = Except.ok (st', ds)) :
    ∃ rc room,
      p.roomCode = some rc ∧
      lookupRoom (ensureRoom st.rooms (jsUpper rc) now) (jsUpper rc) = some room ∧
      ((2 ≤ room.participants.length ∧
        st' = { st with rooms := ensureRoom st.rooms (jsUpper rc) now } ∧
        ds = [⟨sid, Msg.roomFull fullMessage⟩]) ∨
       (room.participants.length ≤ 1 ∧
        st' = { rooms := setRoom (ensureRoom st.rooms (jsUpper rc) now) (jsUpper rc)
                  { room with participants := room.participants ++
                      [Participant.mk sid (jsOr p.userName "Anonymous")] },
                socks := updSock (updSock st.socks sid
                    (fun s => { s with joinedRooms := s.joinedRooms ++ [jsUpper rc] })) sid
                  (fun s => { s with roomCode := some (jsUpper rc),
                                     userName := p.userName }) } ∧
        (((room.participants ++ [Participant.mk sid (jsOr p.userName "Anonymous")]).length ≠ 2 ∧
          ds = [⟨sid, Msg.roomJoined (jsUpper rc)
                  (room.participants ++ [Participant.mk sid (jsOr p.userName "Anonymous")]).length
                  ((room.participants ++ [Participant.mk sid (jsOr p.userName "Anonymous")]).length == 1)⟩]) ∨
         ((room.participants ++ [Participant.mk sid (jsOr p.userName "Anonymous")]).length = 2 ∧
          ∃ op2, (room.participants ++ [Participant.mk sid (jsOr p.userName "Anonymous")]).find?
                   (fun q => !(q.socketId == sid)) = some op2 ∧
            ds = [⟨sid, Msg.roomJoined (jsUpper rc)
                    (room.participants ++ [Participant.mk sid (jsOr p.userName "Anonymous")]).length
                    ((room.participants ++ [Participant.mk sid (jsOr p.userName "Anonymous")]).length == 1)⟩] ++
                 broadcastTo (updSock (updSock st.socks sid
                     (fun s => { s with joinedRooms := s.joinedRooms ++ [jsUpper rc] })) sid
                   (fun s => { s with roomCode := some (jsUpper rc),
                                      userName := p.userName }))
                   (jsUpper rc) sid (Msg.userJoined sid p.userName) ++
                 [⟨sid, Msg.existingUser op2.socketId op2.userName⟩])))) := by
  unfold joinRoom at h
  cases hrc : p.roomCode with
  | none => rw [hrc] at h; cases h
  | some rc =>
    rw [hrc] at h
    simp only [] at h
    cases hlk : lookupRoom (ensureRoom st.rooms (jsUpper rc) now) (jsUpper rc) with
    | none => rw [hlk] at h; cases h
    | some room =>
      rw [hlk] at h
      simp only [] at h
      refine ⟨rc, room, rfl, hlk, ?_⟩
      by_cases hfull : 2 ≤ room.participants.length
      · rw [if_pos hfull] at h
        simp only [Except.ok.injEq, Prod.mk.injEq] at h
        exact Or.inl ⟨hfull, h.1.symm, h.2.symm⟩
      · rw [if_neg hfull] at h
        have hle : room.participants.length ≤ 1 := by omega
        by_cases hlen2 :
            (room.participants ++ [Participant.mk sid (jsOr p.userName "Anonymous")]).length = 2
        · have hb : ((room.participants ++
              [Participant.mk sid (jsOr p.userName "Anonymous")]).length == 2) = true := by
            simp [hlen2]
          rw [if_pos hb] at h
          cases hfind : (room.participants ++
              [Participant.mk sid (jsOr p.userName "Anonymous")]).find?
                (fun q => !(q.socketId == sid)) with
          | none => rw [hfind] at h; cases h
          | some op2 =>
            rw [hfind] at h
            simp only [Except.ok.injEq, Prod.mk.injEq] at h
            refine Or.inr ⟨hle, h.1.symm, Or.inr ⟨hlen2, op2, ?_, ?_⟩⟩
            · rfl
            · exact h.2.symm
        · have hb : ¬(((room.participants ++
              [Participant.mk sid (jsOr p.userName "Anonymous")]).length == 2) = true) := by
            simpa using hlen2
          rw [if_neg hb] at h
          simp only [Except.ok.injEq, Prod.mk.injEq] at h
          exact Or.inr ⟨hle, h.1.symm, Or.inl ⟨hlen2, h.2.symm⟩⟩

/-! ### Handler state and no-op lemmas -/

theorem joinRoom_full {st : ServerState} {sid rc : String} {un : Option String}
    {now : Nat} {room : Room}
    (hl : lookupRoom st.rooms (jsUpper rc) = some room)
    (hf : 2 ≤ room.participants.length) :
    joinRoom st sid ⟨some rc, un⟩ now =
      Except.ok (st, [⟨sid, Msg.roomFull fullMessage⟩]) := by
  unfold joinRoom
  simp only []
  have hens : ensureRoom st.rooms (jsUpper rc) now = st.rooms :=
    ensureRoom_of_isSome (by simp [hl])
  rw [hens, hl]
  simp only []
  rw [if_pos hf]

theorem handleDisconnect_noRoom {st : ServerState} {sid : String} {sock : Sock}
    (hs : getSock st.socks sid = some sock) (hrc : sock.roomCode = none) :
    handleDisconnect st sid = (st, []) := by
  unfold handleDisconnect
  rw [hs]
  simp only []
  rw [hrc]

theorem toggleAudio_noRoom {st : ServerState} {sid : String} {sock : Sock}
    (hs : getSock st.socks sid = some sock) (hrc : sock.roomCode = none)
    (b : Bool) : toggleAudio st sid b = (st, []) := by
  unfold toggleAudio
  rw [hs]
  simp only []
  rw [hrc]

theorem toggleVideo_noRoom {st : ServerState} {sid : String} {sock : Sock}
    (hs : getSock st.socks sid = some sock) (hrc : sock.roomCode = none)
    (b : Bool) : toggleVideo st sid b = (st, []) := by
  unfold toggleVideo
  rw [hs]
  simp only []
  rw [hrc]

theorem toggleScreenShare_noRoom {st : ServerState} {sid : String} {sock : Sock}
    (hs : getSock st.socks sid = some sock) (hrc : sock.roomCode = none)
    (b : Bool) : toggleScreenShare st sid b = (st, []) := by
  unfold toggleScreenShare
  rw [hs]
  simp only []
  rw [hrc]

theorem chatMessage_noRoom {st : ServerState} {sid : String} {sock : Sock}
    (hs : getSock st.socks sid = some sock) (hrc : sock.roomCode = none)
    (txt tm : String) : chatMessage st sid txt tm = (st, []) := by
  unfold chatMessage
  rw [hs]
  simp only []
  rw [hrc]

theorem offerHandler_state (st : ServerState) (sid t o : String) :
    (offerHandler st sid t o).1 = st := by
  unfold offerHandler
  cases getSock st.socks sid <;> rfl

theorem answerHandler_state (st : ServerState) (sid t a : String) :
    (answerHandler st sid t a).1 = st := by
  unfold answerHandler
  cases getSock st.socks sid <;> rfl

theorem iceHandler_state (st : ServerState) (sid t c : String) :
    (iceHandler st sid t c).1 = st := by
  unfold iceHandler
  cases getSock st.socks sid <;> rfl

theorem toggleAudio_state (st : ServerState) (sid : String) (b : Bool) :
    (toggleAudio st sid b).1 = st := by
  unfold toggleAudio
  split
  · rfl
  · split <;> rfl

theorem toggleVideo_state (st : ServerState) (sid : String) (b : Bool) :
    (toggleVideo st sid b).1 = st := by
  unfold toggleVideo
  split
  · rfl
  · split <;> rfl

theorem toggleScreenShare_state (st : ServerState) (sid : String) (b : Bool) :
    (toggleScreenShare st sid b).1 = st := by
  unfold toggleScreenShare
  split
  · rfl
  · split <;> rfl

theorem chatMessage_state (st : ServerState) (sid txt tm : String) :
    (chatMessage st sid txt tm).1 = st := by
  unfold chatMessage
  split
  · rfl
  · split <;> rfl

theorem handleDisconnect_rooms_bounded {st : ServerState} {sid : String}
    (hb : registryBounded st.rooms) :
    registryBounded (handleDisconnect st sid).1.rooms := by
  cases hg : getSock st.socks sid with
  | none => simpa only [handleDisconnect, hg] using hb
  | some sock =>
    cases hrc : sock.roomCode with
    | none => simpa only [handleDisconnect, hg, hrc] using hb
    | some rc =>
      cases hlk : lookupRoom st.rooms rc with
      | none => simpa only [handleDisconnect, hg, hrc, hlk] using hb
      | some room =>
        have hflt : (room.participants.filter
            (fun p => !(p.socketId == sid))).length ≤ 2 := by
          calc (room.participants.filter (fun p => !(p.socketId == sid))).length
              ≤ room.participants.length := List.length_filter_le _ _
            _ ≤ 2 := registryBounded_lookup hb hlk
        simp only [handleDisconnect, hg, hrc, hlk]
        split
        · exact registryBounded_filter
            (registryBounded_setRoom hb hflt) _
        · exact registryBounded_setRoom hb hflt

/-! ### The two-participant invariant over runs -/

theorem step_bounded {st : ServerState} {op : Op} {st' : ServerState}
    {ds : List Delivery} (hb : registryBounded st.rooms)
    (h : step st op = some (st', ds)) : registryBounded st'.rooms := by
  cases op with
  | connect sid =>
    simp only [step, Option.some.injEq, Prod.mk.injEq] at h
    rw [← h.1]
    exact hb
  | join sid rc un now =>
    simp only [step] at h
    cases hj : joinRoom st sid ⟨rc, un⟩ now with
    | error e => rw [hj] at h; cases h
    | ok r =>
      rw [hj] at h
      simp only [Option.some.injEq] at h
      have hst' : st' = r.1 := (congrArg Prod.fst h).symm
      rw [hst']
      obtain ⟨rc2, room, _, _, hcase⟩ := joinRoom_ok_cases hj
      rcases hcase with ⟨_, hst, _⟩ | ⟨hle, hst, _⟩
      · rw [hst]
        exact registryBounded_ensureRoom hb
      · rw [hst]
        refine registryBounded_setRoom (registryBounded_ensureRoom hb) ?_
        simp only [List.length_append, List.length_cons, List.length_nil]
        omega
  | leaveRoom sid =>
    simp only [step, Option.some.injEq] at h
    have hst' : st' = (handleDisconnect st sid).1 := (congrArg Prod.fst h).symm
    rw [hst']
    exact handleDisconnect_rooms_bounded hb
  | disconnect sid =>
    simp only [step, Option.some.injEq] at h
    have hst' : st' = (disconnectSock st sid).1 := (congrArg Prod.fst h).symm
    rw [hst']
    exact handleDisconnect_rooms_bounded hb
  | createPost p0 p1 p2 p3 p4 p5 p6 p7 now =>
    simp only [step, Option.some.injEq, Prod.mk.injEq] at h
    rw [← h.1]
    exact registryBounded_setRoom hb (by simp)
  | reap now =>
    simp only [step, Option.some.injEq, Prod.mk.injEq] at h
    rw [← h.1]
    exact registryBounded_filter hb _
  | offer sid t o =>
    simp only [step, Option.some.injEq] at h
    have hst' : st' = (offerHandler st sid t o).1 := (congrArg Prod.fst h).symm
    rw [hst', offerHandler_state]
    exact hb
  | answer sid t a =>
    simp only [step, Option.some.injEq] at h
    have hst' : st' = (answerHandler st sid t a).1 := (congrArg Prod.fst h).symm
    rw [hst', answerHandler_state]
    exact hb
  | ice sid t c =>
    simp only [step, Option.some.injEq] at h
    have hst' : st' = (iceHandler st sid t c).1 := (congrArg Prod.fst h).symm
    rw [hst', iceHandler_state]
    exact hb
  | togAudio sid b =>
    simp only [step, Option.some.injEq] at h
    have hst' : st' = (toggleAudio st sid b).1 := (congrArg Prod.fst h).symm
    rw [hst', toggleAudio_state]
    exact hb
  | togVideo sid b =>
    simp only [step, Option.some.injEq] at h
    have hst' : st' = (toggleVideo st sid b).1 := (congrArg Prod.fst h).symm
    rw [hst', toggleVideo_state]
    exact hb
  | togShare sid b =>
    simp only [step, Option.some.injEq] at h
    have hst' : st' = (toggleScreenShare st sid b).1 := (congrArg Prod.fst h).symm
    rw [hst', toggleScreenShare_state]
    exact hb
  | chat sid txt tm =>
    simp only [step, Option.some.injEq] at h
    have hst' : st' = (chatMessage st sid txt tm).1 := (congrArg Prod.fst h).symm
    rw [hst', chatMessage_state]
    exact hb

theorem runOps_bounded (ops : List Op) :
    ∀ st st', registryBounded st.rooms → runOps st ops = some st' →
      registryBounded st'.rooms := by
  induction ops with
  | nil =>
    intro st st' hb h
    simp only [runOps, Option.some.injEq] at h
    rw [← h]
    exact hb
  | cons op ops ih =>
    intro st st' hb h
    simp only [runOps] at h
    cases hstep : step st op with
    | none => rw [hstep] at h; cases h
    | some r =>
      rw [hstep] at h
      exact ih r.1 st'
        (step_bounded hb (by rw [hstep, Prod.mk.eta])) h

/-! ### Constructive join lemmas -/

theorem joinRoom_first {st : ServerState} {sid rc : String} {un : Option String}
    {now : Nat} {room : Room}
    (hl : lookupRoom st.rooms (jsUpper rc) = some room)
    (hparts : room.participants = []) :
    joinRoom st sid ⟨some rc, un⟩ now =
      Except.ok
        ({ rooms := setRoom st.rooms (jsUpper rc)
                      (Room.mk [Participant.mk sid (jsOr un "Anonymous")]
                        room.createdAt),
           socks := updSock
                      (updSock st.socks sid
                        (fun s => { s with
                          joinedRooms := s.joinedRooms ++ [jsUpper rc] }))
                      sid
                      (fun s => { s with roomCode := some (jsUpper rc),
                                         userName := un }) },
         [⟨sid, Msg.roomJoined (jsUpper rc) 1 true⟩]) := by
  unfold joinRoom
  simp only []
  rw [ensureRoom_of_isSome (by simp [hl]), hl]
  simp only []
  rw [if_neg (by rw [hparts]; simp)]
  rw [if_neg (by rw [hparts]; simp)]
  rw [hparts]
  rfl

theorem joinRoom_second {st : ServerState} {sid rc : String} {un : Option String}
    {now : Nat} {room : Room} {pa : Participant}
    (hl : lookupRoom st.rooms (jsUpper rc) = some room)
    (hparts : room.participants = [pa])
    (hneq : pa.socketId ≠ sid) :
    joinRoom st sid ⟨some rc, un⟩ now =
      Except.ok
        ({ rooms := setRoom st.rooms (jsUpper rc)
                      (Room.mk [pa, Participant.mk sid (jsOr un "Anonymous")]
                        room.createdAt),
           socks := updSock
                      (updSock st.socks sid
                        (fun s => { s with
                          joinedRooms := s.joinedRooms ++ [jsUpper rc] }))
                      sid
                      (fun s => { s with roomCode := some (jsUpper rc),
                                         userName := un }) },
         [⟨sid, Msg.roomJoined (jsUpper rc) 2 false⟩] ++
           broadcastTo
             (updSock
               (updSock st.socks sid
                 (fun s => { s with
                   joinedRooms := s.joinedRooms ++ [jsUpper rc] }))
               sid
               (fun s => { s with roomCode := some (jsUpper rc),
                                  userName := un }))
             (jsUpper rc) sid (Msg.userJoined sid un) ++
           [⟨sid, Msg.existingUser pa.socketId pa.userName⟩]) := by
  unfold joinRoom
  simp only []
  rw [ensureRoom_of_isSome (by simp [hl]), hl]
  simp only []
  rw [if_neg (by rw [hparts]; simp)]
  rw [if_pos (by rw [hparts]; simp)]
  rw [hparts]
  have hbeq : (pa.socketId == sid) = false := beq_eq_false_iff_ne.mpr hneq
  have hfind : ([pa, Participant.mk sid (jsOr un "Anonymous")].find?
      (fun q => !(q.socketId == sid))) = some pa := by
    simp [List.find?, hbeq]
  simp only [List.cons_append, List.nil_append]
  rw [hfind]
  rfl

/-! ### Generated codes are uppercase-stable -/

theorem codeChar_toUpper (p : Nat) : Char.toUpper (codeChar p) = codeChar p := by
  unfold codeChar
  have h : p % 36 < 36 := Nat.mod_lt _ (by omega)
  generalize p % 36 = k at h
  interval_cases k <;> decide

theorem generateRoomCode_upper (p0 p1 p2 p3 p4 p5 p6 p7 : Nat) :
    jsUpper (generateRoomCode p0 p1 p2 p3 p4 p5 p6 p7) =
      generateRoomCode p0 p1 p2 p3 p4 p5 p6 p7 := by
  unfold jsUpper generateRoomCode
  simp only [List.map_cons, List.map_nil, codeChar_toUpper]
  rfl

theorem getRoomStatus_of_lookup {st : ServerState} {c : String} {room : Room}
    (hup : jsUpper c = c) (hl : lookupRoom st.rooms c = some room) :
    getRoomStatus st c =
      some (room.participants.length, decide (2 ≤ room.participants.length)) := by
  unfold getRoomStatus
  rw [hup, hl]
  rfl

/-! ### Claim C1 -/

/-- C1: for every room in the registry, after any sequence of server
operations starting from the empty state (joins, leaves, disconnects,
REST room creation, reaper ticks, relays), the participants list has
length at most 2; and a join-room on a room that already holds 2
participants appends nothing: it returns the registry unchanged and
only a room-full rejection to the requester. -/
theorem C1_two_participant_invariant :
    (∀ ops st', runOps initState ops = some st' →
      registryBounded st'.rooms) ∧
    (∀ st sid rc un now room,
      lookupRoom st.rooms (jsUpper rc) = some room →
      2 ≤ room.participants.length →
      joinRoom st sid ⟨some rc, un⟩ now =
        Except.ok (st, [⟨sid, Msg.roomFull fullMessage⟩])) := by
  constructor
  · intro ops st' h
    exact runOps_bounded ops initState st' registryBounded_nil h
  · intro st sid rc un now room hl hf
    exact joinRoom_full hl hf

/-- A concrete run used to instantiate C1. -/
def c1ops : List Op :=
  [Op.connect "A", Op.join "A" (some "QQQQ-0001") (some "Al") 0]

/-- The state c1ops reaches. -/
def c1final : ServerState :=
  { rooms := [("QQQQ-0001",
      { participants := [{ socketId := "A", userName := "Al" }],
        createdAt := 0 })],
    socks := [{ sid := "A", roomCode := some "QQQQ-0001",
                userName := some "Al", joinedRooms := ["QQQQ-0001"] }] }

/-- A registry whose single room already holds two participants. -/
def c1fullState : ServerState :=
  { rooms := [("QQQQ-0002",
      { participants := [{ socketId := "A", userName := "Al" },
                         { socketId := "B", userName := "Bo" }],
        createdAt := 0 })],
    socks := [] }

/-- The full room inside c1fullState. -/
def c1fullRoom : Room :=
  { participants := [{ socketId := "A", userName := "Al" },
                     { socketId := "B", userName := "Bo" }],
    createdAt := 0 }

theorem C1_two_participant_invariant_witness :
    (runOps initState c1ops = some c1final ∧ registryBounded c1final.rooms) ∧
    (lookupRoom c1fullState.rooms (jsUpper "qqqq-0002") = some c1fullRoom ∧
      2 ≤ c1fullRoom.participants.length ∧
      joinRoom c1fullState "C" ⟨some "qqqq-0002", some "Cy"⟩ 7 =
        Except.ok (c1fullState, [⟨"C", Msg.roomFull fullMessage⟩])) := by
  refine ⟨⟨by decide, ?_⟩, by decide, by decide, ?_⟩
  · exact C1_two_participant_invariant.1 c1ops c1final (by decide)
  · exact C1_two_participant_invariant.2 c1fullState "C" "qqqq-0002"
      (some "Cy") 7 c1fullRoom (by decide) (by decide)

/-! ### Claim C8 -/

/-- C8: one reaper tick deletes exactly the rooms that have 0
participants and whose createdAt is older than the 30-minute threshold
at sweep time: a surviving entry is kept iff it is not such a room, the
sweep adds nothing, and in particular an empty room younger than the
threshold and a non-empty room of any age are kept. -/
theorem C8_reaper_exact (st : ServerState) (now : Nat) :
    (∀ p ∈ st.rooms, (p ∈ (cleanupStale st now).rooms ↔
      ¬(p.2.participants.length = 0 ∧ staleThreshold < now - p.2.createdAt))) ∧
    (∀ q ∈ (cleanupStale st now).rooms, q ∈ st.rooms) := by
  constructor
  · intro p hp
    unfold cleanupStale
    simp [List.mem_filter, hp, -not_and]
    by_cases hl2 : p.2.participants = []
    · simp only [hl2, not_true_eq_false, false_or, true_and]
      omega
    · simp [hl2]
  · intro q hq
    exact (List.mem_filter.mp hq).1

/-- Registry used to instantiate C8: one stale empty room, one fresh
empty room, one old room that still has a participant. -/
def c8state : ServerState :=
  { rooms := [("OLDR-0000", Room.mk [] 0),
              ("NEWR-0001", Room.mk [] 1800000),
              ("BUSY-0002", Room.mk [Participant.mk "A" "Al"] 0)],
    socks := [] }

theorem C8_reaper_exact_witness :
    ((("OLDR-0000", Room.mk [] 0) ∈ (cleanupStale c8state 1800001).rooms ↔
      ¬((Room.mk [] 0 : Room).participants.length = 0 ∧
        staleThreshold < 1800001 - (Room.mk [] 0 : Room).createdAt)) ∧
     (("BUSY-0002", Room.mk [Participant.mk "A" "Al"] 0) ∈
        (cleanupStale c8state 1800001).rooms ↔
      ¬((Room.mk [Participant.mk "A" "Al"] 0 : Room).participants.length = 0 ∧
        staleThreshold <
          1800001 - (Room.mk [Participant.mk "A" "Al"] 0 : Room).createdAt))) := by
  constructor
  · exact (C8_reaper_exact c8state 1800001).1 ("OLDR-0000", Room.mk [] 0)
      (by decide)
  · exact (C8_reaper_exact c8state 1800001).1
      ("BUSY-0002", Room.mk [Participant.mk "A" "Al"] 0) (by decide)

/-! ### Claim C5 -/

/-- Registry for the C5 counterexample: a room with one participant
already sits under the code the next create call will generate. -/
def c5state : ServerState :=
  { rooms := [("AAAA-AAAA",
      Room.mk [Participant.mk "B" "Bob"] 5)],
    socks := [] }

/-- C5 counterexample: with all eight random draws 0 the generator
yields "AAAA-AAAA"; the create endpoint performs no collision retry and
rooms.set replaces the existing room, erasing its participant.  This
refutes the claim that creating a room never replaces or erases an
existing room. -/
theorem C5_counterexample :
    lookupRoom c5state.rooms "AAAA-AAAA" =
      some (Room.mk [Participant.mk "B" "Bob"] 5) ∧
    (createRoomPost c5state 0 0 0 0 0 0 0 0 99).2 = "AAAA-AAAA" ∧
    lookupRoom (createRoomPost c5state 0 0 0 0 0 0 0 0 99).1.rooms "AAAA-AAAA" =
      some (Room.mk [] 99) := by decide

/-- C5 amended: createRoom always succeeds and installs a room with
empty participants and the current timestamp under the generated code,
leaving the binding of every other code unchanged; there is no
collision retry, so a pre-existing room under the generated code is
replaced. -/
theorem C5_create_room (st : ServerState) (p0 p1 p2 p3 p4 p5 p6 p7 now : Nat) :
    lookupRoom (createRoomPost st p0 p1 p2 p3 p4 p5 p6 p7 now).1.rooms
        (createRoomPost st p0 p1 p2 p3 p4 p5 p6 p7 now).2 =
      some (Room.mk [] now) ∧
    ∀ c, c ≠ (createRoomPost st p0 p1 p2 p3 p4 p5 p6 p7 now).2 →
      lookupRoom (createRoomPost st p0 p1 p2 p3 p4 p5 p6 p7 now).1.rooms c =
        lookupRoom st.rooms c := by
  constructor
  · exact lookupRoom_setRoom_self st.rooms
      (generateRoomCode p0 p1 p2 p3 p4 p5 p6 p7) (Room.mk [] now)
  · intro c hc
    exact lookupRoom_setRoom_ne st.rooms
      (generateRoomCode p0 p1 p2 p3 p4 p5 p6 p7) c (Room.mk [] now)
      (fun h => hc h.symm)

theorem C5_create_room_witness :
    lookupRoom (createRoomPost initState 0 0 0 0 0 0 0 0 3).1.rooms
        (createRoomPost initState 0 0 0 0 0 0 0 0 3).2 = some (Room.mk [] 3) ∧
    ("ZZZZ-9999" ≠ (createRoomPost initState 0 0 0 0 0 0 0 0 3).2 ∧
      lookupRoom (createRoomPost initState 0 0 0 0 0 0 0 0 3).1.rooms "ZZZZ-9999" =
        lookupRoom initState.rooms "ZZZZ-9999") := by
  refine ⟨(C5_create_room initState 0 0 0 0 0 0 0 0 3).1, by decide, ?_⟩
  exact (C5_create_room initState 0 0 0 0 0 0 0 0 3).2 "ZZZZ-9999" (by decide)

/-! ### Claims C7 and C10 -/

/-- C7 counterexample: a connection that never joined any room sends an
offer naming another socket id, and the offer IS delivered to that
socket; so the relay handlers are not no-ops for room-less senders,
refuting the claim that offer/answer/ice-candidate deliver nothing when
the sender has no associated room. -/
theorem C7_counterexample :
    (runTrace initState
        [Op.connect "A", Op.connect "B", Op.offer "A" "B" "sdp1"]).map
        (fun r => r.2) =
      some [[], [], [⟨"B", Msg.offerRelay "sdp1" "A" none⟩]] := by decide

/-- C7 amended: the toggle handlers, the chat relay, and the leave path
are silent no-ops for a sender whose roomCode is unset, changing no
state and delivering nothing; the offer, answer and ice-candidate
relays are the exception: they forward to the named target regardless
of the sender having joined a room. -/
theorem C7_no_room_noops (st : ServerState) (sid : String) (sock : Sock)
    (hs : getSock st.socks sid = some sock) (hrc : sock.roomCode = none)
    (m v sh : Bool) (txt tm : String) :
    toggleAudio st sid m = (st, []) ∧
    toggleVideo st sid v = (st, []) ∧
    toggleScreenShare st sid sh = (st, []) ∧
    chatMessage st sid txt tm = (st, []) ∧
    handleDisconnect st sid = (st, []) :=
  ⟨toggleAudio_noRoom hs hrc m, toggleVideo_noRoom hs hrc v,
   toggleScreenShare_noRoom hs hrc sh, chatMessage_noRoom hs hrc txt tm,
   handleDisconnect_noRoom hs hrc⟩

/-- A state with a single connected socket that joined nothing. -/
def c7state : ServerState :=
  { rooms := [], socks := [Sock.mk "A" none none []] }

theorem C7_no_room_noops_witness :
    getSock c7state.socks "A" = some (Sock.mk "A" none none []) ∧
    (Sock.mk "A" none none []).roomCode = none ∧
    toggleAudio c7state "A" true = (c7state, []) ∧
    toggleVideo c7state "A" true = (c7state, []) ∧
    toggleScreenShare c7state "A" true = (c7state, []) ∧
    chatMessage c7state "A" "hi" "10:00" = (c7state, []) ∧
    handleDisconnect c7state "A" = (c7state, []) := by
  have h := C7_no_room_noops c7state "A" (Sock.mk "A" none none [])
    (by decide) (by decide) true true true "hi" "10:00"
  exact ⟨by decide, by decide, h.1, h.2.1, h.2.2.1, h.2.2.2.1, h.2.2.2.2⟩

/-- C10: a join rejected with room-full happens before the connection
is attached to the broadcast group and before roomCode and userName are
written: the whole server state is returned unchanged, and a rejected
connection that never joined a room keeps roomCode unset, so its
subsequent toggle and chat events deliver nothing to anyone and change
no state. -/
theorem C10_rejected_join_unchanged (st : ServerState) (sid rc : String)
    (un : Option String) (now : Nat) (room : Room) (sock : Sock)
    (hl : lookupRoom st.rooms (jsUpper rc) = some room)
    (hf : 2 ≤ room.participants.length)
    (hs : getSock st.socks sid = some sock) (hrc : sock.roomCode = none)
    (m v sh : Bool) (txt tm : String) :
    joinRoom st sid ⟨some rc, un⟩ now =
      Except.ok (st, [⟨sid, Msg.roomFull fullMessage⟩]) ∧
    toggleAudio st sid m = (st, []) ∧
    toggleVideo st sid v = (st, []) ∧
    toggleScreenShare st sid sh = (st, []) ∧
    chatMessage st sid txt tm = (st, []) :=
  ⟨joinRoom_full hl hf, toggleAudio_noRoom hs hrc m, toggleVideo_noRoom hs hrc v,
   toggleScreenShare_noRoom hs hrc sh, chatMessage_noRoom hs hrc txt tm⟩

/-- A full room plus a connected socket C that joined nothing. -/
def c10state : ServerState :=
  { rooms := [("QQQQ-0003",
      Room.mk [Participant.mk "A" "Al", Participant.mk "B" "Bo"] 0)],
    socks := [Sock.mk "C" none none []] }

theorem C10_rejected_join_unchanged_witness :
    lookupRoom c10state.rooms (jsUpper "qqqq-0003") =
      some (Room.mk [Participant.mk "A" "Al", Participant.mk "B" "Bo"] 0) ∧
    joinRoom c10state "C" ⟨some "qqqq-0003", some "Cy"⟩ 9 =
      Except.ok (c10state, [⟨"C", Msg.roomFull fullMessage⟩]) ∧
    toggleAudio c10state "C" true = (c10state, []) ∧
    chatMessage c10state "C" "hi" "10:00" = (c10state, []) := by
  have h := C10_rejected_join_unchanged c10state "C" "qqqq-0003" (some "Cy") 9
    (Room.mk [Participant.mk "A" "Al", Participant.mk "B" "Bo"] 0)
    (Sock.mk "C" none none []) (by decide) (by decide) (by decide) (by decide)
    true true true "hi" "10:00"
  exact ⟨by decide, h.1, h.2.1, h.2.2.2.2⟩

/-! ### Claim C2 -/

/-- C2 amended: on every successful join, the only room-joined message
in the emitted deliveries goes to the joiner, carries the normalized
code and the room participant count produced by this join, and its
isInitiator flag is true iff that count is 1.  (The original claim's
consequence that every completed pairing contains exactly one
initiator-marked participant is refuted by the counterexample.) -/
theorem C2_isInitiator_iff (st : ServerState) (sid rc : String)
    (un : Option String) (now : Nat) (st' : ServerState) (ds : List Delivery)
    (h : joinRoom st sid ⟨some rc, un⟩ now = Except.ok (st', ds))
    (t c : String) (n : Nat) (b : Bool)
    (hmem : Delivery.mk t (Msg.roomJoined c n b) ∈ ds) :
    t = sid ∧ c = jsUpper rc ∧ (b = true ↔ n = 1) ∧
    ∃ room2, lookupRoom st'.rooms (jsUpper rc) = some room2 ∧
      room2.participants.length = n := by
  obtain ⟨rc2, room, hrc2, hlk, hcase⟩ := joinRoom_ok_cases h
  have h5 : some rc = some rc2 := hrc2
  injection h5 with h6
  subst h6
  rcases hcase with ⟨hfull, hst, hds⟩ | ⟨hle, hst, hrest⟩
  · rw [hds] at hmem
    simp at hmem
  · rcases hrest with ⟨hne2, hds⟩ | ⟨heq2, op2, hfind, hds⟩
    · rw [hds] at hmem
      simp only [List.mem_singleton, Delivery.mk.injEq, Msg.roomJoined.injEq] at hmem
      obtain ⟨ht, hc, hn, hb⟩ := hmem
      subst ht; subst hc; subst hn; subst hb
      refine ⟨rfl, rfl, ?_, ?_⟩
      · exact beq_iff_eq
      · rw [hst]
        exact ⟨_, lookupRoom_setRoom_self _ _ _, rfl⟩
    · rw [hds] at hmem
      simp only [List.append_assoc, List.mem_append, List.mem_singleton,
        Delivery.mk.injEq, Msg.roomJoined.injEq] at hmem
      rcases hmem with ⟨ht, hc, hn, hb⟩ | hmem2
      · subst ht; subst hc; subst hn; subst hb
        refine ⟨rfl, rfl, ?_, ?_⟩
        · exact beq_iff_eq
        · rw [hst]
          exact ⟨_, lookupRoom_setRoom_self _ _ _, rfl⟩
      · rcases hmem2 with hmem3 | ⟨ht, habs⟩
        · have := broadcastTo_msg hmem3
          simp at this
        · cases habs

/-- The C2 witness start state: one open room, one connected socket. -/
def c2wstate : ServerState :=
  { rooms := [("QQQQ-0004", Room.mk [] 0)],
    socks := [Sock.mk "A" none none []] }

/-- The state after the C2 witness join. -/
def c2wfinal : ServerState :=
  { rooms := [("QQQQ-0004",
      Room.mk [Participant.mk "A" "Al"] 0)],
    socks := [Sock.mk "A" (some "QQQQ-0004") (some "Al") ["QQQQ-0004"]] }

/-- The deliveries of the C2 witness join. -/
def c2wdeliveries : List Delivery :=
  [Delivery.mk "A" (Msg.roomJoined "QQQQ-0004" 1 true)]

theorem C2_isInitiator_iff_witness :
    joinRoom c2wstate "A" ⟨some "QQQQ-0004", some "Al"⟩ 0 =
      Except.ok (c2wfinal, c2wdeliveries) ∧
    Delivery.mk "A" (Msg.roomJoined "QQQQ-0004" 1 true) ∈ c2wdeliveries ∧
    ("A" = "A" ∧ "QQQQ-0004" = jsUpper "QQQQ-0004" ∧
      (true = true ↔ 1 = 1) ∧
      ∃ room2, lookupRoom c2wfinal.rooms (jsUpper "QQQQ-0004") = some room2 ∧
        room2.participants.length = 1) := by
  refine ⟨rfl, by decide, ?_⟩
  exact C2_isInitiator_iff c2wstate "A" "QQQQ-0004" (some "Al") 0
    c2wfinal c2wdeliveries rfl "A" "QQQQ-0004" 1 true (by decide)

/-- The event sequence refuting the second half of C2: A and B pair up,
A leaves, C takes the free slot. -/
def c2ops : List Op :=
  [Op.connect "A", Op.connect "B", Op.connect "C",
   Op.join "A" (some "AAAA-AAAA") (some "Ann") 0,
   Op.join "B" (some "AAAA-AAAA") (some "Ben") 0,
   Op.leaveRoom "A",
   Op.join "C" (some "AAAA-AAAA") (some "Cal") 0]

/-- Socket ids of the participants of a room, in join order. -/
def roomPartIds (st : ServerState) (c : String) : List String :=
  ((lookupRoom st.rooms c).map
    (fun r => r.participants.map (fun q => q.socketId))).getD []

/-- Targets of all room-joined deliveries whose isInitiator flag is
true, across a whole trace. -/
def initiatorAckTargets (ts : List (List Delivery)) : List String :=
  ((ts.flatten).filter (fun d =>
    match d.msg with
    | Msg.roomJoined _ _ true => true
    | _ => false)).map (fun d => d.target)

/-- C2 counterexample: after the c2ops run the completed pairing in the
room is B then C (B joined first), yet the only room-joined delivery
with isInitiator true in the whole trace went to A, who already left:
neither member of the completed pairing was marked initiator, refuting
the claim that exactly one of them is, namely the first joiner. -/
theorem C2_counterexample :
    (runTrace initState c2ops).map
        (fun r => (roomPartIds r.1 "AAAA-AAAA", initiatorAckTargets r.2)) =
      some (["B", "C"], ["A"]) := by decide

/-! ### Claim C3 -/

/-- The failing sequence for C3: A and B pair, then A sends an explicit
leave-room and afterwards its transport disconnect fires, which is
exactly what the bundled client does on hang-up. -/
def c3ops : List Op :=
  [Op.connect "A", Op.connect "B",
   Op.join "A" (some "AAAA-AAAA") (some "Al") 0,
   Op.join "B" (some "AAAA-AAAA") (some "Bo") 0,
   Op.leaveRoom "A",
   Op.disconnect "A"]

/-- C3: handleDisconnect never clears the roomCode scratch field, so
when A leaves and then disconnects the leave path runs twice and B
receives the user-left notification for A twice, not once as the claim
states (the room itself still holds only B).  The both-leave half of
the claim does hold: after B also leaves, the room is gone. -/
theorem C3_double_user_left :
    (runTrace initState c3ops).map
        (fun r => (((r.2.flatten).filter (fun d =>
            decide (d = Delivery.mk "B" (Msg.userLeft "A" (some "Al"))))).length,
          lookupRoom r.1.rooms "AAAA-AAAA")) =
      some (2, some (Room.mk [Participant.mk "B" "Bo"] 0)) ∧
    (runOps initState (c3ops ++ [Op.leaveRoom "B"])).map
        (fun st => lookupRoom st.rooms "AAAA-AAAA") = some none := by
  constructor <;> decide

/-! ### Claim C6 -/

/-- C6: two single-event crashes refuting process safety: a join-room
payload without roomCode throws (roomCode.toUpperCase on undefined),
and a connection joining the same room twice fills the room with two
copies of itself, so the otherParticipant lookup finds nothing and
dereferencing it throws; both exceptions escape the handler, killing
the run. -/
theorem C6_handler_crashes :
    runOps initState [Op.connect "A", Op.join "A" none (some "Al") 0] = none ∧
    joinRoom (ServerState.mk [] [Sock.mk "A" none none []]) "A"
        ⟨none, some "Al"⟩ 0 =
      Except.error (JsErr.typeError
        "Cannot read properties of undefined (reading toUpperCase)") ∧
    runOps initState
      [Op.connect "A", Op.join "A" (some "AAAA-AAAA") (some "Al") 0,
       Op.join "A" (some "AAAA-AAAA") (some "Al") 0] = none := by
  refine ⟨by decide, rfl, by decide⟩

/-! ### Claim C9 -/

theorem getLast?_append_singleton {α : Type} (l : List α) (a : α) :
    (l ++ [a]).getLast? = some a := by
  rw [List.getLast?_append_cons]
  rfl

/-- C9 amended: on a join that is not rejected, the participant record
appended to the room carries the defaulted display name (Anonymous when
the supplied name is absent or empty) — and hence so does any
existing-user notice, which reads that record — while the user-joined
notification emitted by the same join and the userName scratch field
stored on the socket (later read by the offer relay, the chat relay and
user-left) keep the raw supplied name without defaulting. -/
theorem C9_anonymous_scope (st : ServerState) (sid rc : String)
    (un : Option String) (now : Nat) (st' : ServerState) (ds : List Delivery)
    (h : joinRoom st sid ⟨some rc, un⟩ now = Except.ok (st', ds))
    (hsmall : ((lookupRoom st.rooms (jsUpper rc)).getD
        (Room.mk [] 0)).participants.length ≤ 1) :
    (∃ room2, lookupRoom st'.rooms (jsUpper rc) = some room2 ∧
      room2.participants.getLast? =
        some (Participant.mk sid (jsOr un "Anonymous"))) ∧
    (∀ t s u, Delivery.mk t (Msg.userJoined s u) ∈ ds → s = sid ∧ u = un) ∧
    (∀ sock, getSock st'.socks sid = some sock → sock.userName = un) := by
  obtain ⟨rc2, room, hrc2, hlk, hcase⟩ := joinRoom_ok_cases h
  have h5 : some rc = some rc2 := hrc2
  injection h5 with h6
  subst h6
  rcases hcase with ⟨hfull, _, _⟩ | ⟨hle, hst, hrest⟩
  · exfalso
    cases hl0 : lookupRoom st.rooms (jsUpper rc) with
    | some r0 =>
      rw [ensureRoom_of_isSome (by simp [hl0]), hl0] at hlk
      injection hlk with h7
      subst h7
      rw [hl0] at hsmall
      simp only [Option.getD_some] at hsmall
      omega
    | none =>
      rw [lookupRoom_ensureRoom, hl0] at hlk
      injection hlk with h7
      subst h7
      simp at hfull
  · refine ⟨?_, ?_, ?_⟩
    · rw [hst]
      refine ⟨_, lookupRoom_setRoom_self _ _ _, ?_⟩
      exact getLast?_append_singleton _ _
    · intro t s u hmem
      rcases hrest with ⟨hne2, hds⟩ | ⟨heq2, op2, hfind, hds⟩
      · rw [hds] at hmem
        simp at hmem
      · rw [hds] at hmem
        simp only [List.append_assoc, List.mem_append, List.mem_singleton,
          Delivery.mk.injEq] at hmem
        rcases hmem with ⟨_, habs⟩ | hmem2
        · cases habs
        · rcases hmem2 with hmem3 | ⟨_, habs⟩
          · have hm := broadcastTo_msg hmem3
            simp only [Msg.userJoined.injEq] at hm
            exact ⟨hm.1, hm.2⟩
          · cases habs
    · intro sock hsock
      rw [hst] at hsock
      rw [getSock_updSock_self
        (updSock st.socks sid
          (fun s => { s with joinedRooms := s.joinedRooms ++ [jsUpper rc] }))
        sid
        (fun s => { s with roomCode := some (jsUpper rc), userName := un })
        (fun s => rfl)] at hsock
      rw [getSock_updSock_self st.socks sid
        (fun s => { s with joinedRooms := s.joinedRooms ++ [jsUpper rc] })
        (fun s => rfl)] at hsock
      cases hgs : getSock st.socks sid with
      | none => rw [hgs] at hsock; cases hsock
      | some s0 =>
        rw [hgs] at hsock
        have h8 : (Sock.mk s0.sid (some (jsUpper rc)) un
            (s0.joinedRooms ++ [jsUpper rc])) = sock := by
          exact Option.some.inj hsock
        rw [← h8]

/-- The C9 witness scenario: a room holding A, and B joining it with no
display name. -/
def c9wstate : ServerState :=
  { rooms := [("QQQQ-0005", Room.mk [Participant.mk "A" "Al"] 0)],
    socks := [Sock.mk "A" (some "QQQQ-0005") (some "Al") ["QQQQ-0005"],
              Sock.mk "B" none none []] }

theorem C9_anonymous_scope_witness :
    ((lookupRoom c9wstate.rooms (jsUpper "QQQQ-0005")).getD
        (Room.mk [] 0)).participants.length ≤ 1 ∧
    (Sock.mk "B" (some "QQQQ-0005") none ["QQQQ-0005"]).userName = none := by
  refine ⟨by decide, ?_⟩
  exact (C9_anonymous_scope c9wstate "B" "QQQQ-0005" none 4 _ _ rfl
      (by decide)).2.2
    (Sock.mk "B" (some "QQQQ-0005") none ["QQQQ-0005"]) (by decide)

/-- The event sequence for the C9 counterexample: Alice joins with a
name, B joins with none, then B sends a chat message. -/
def c9ops : List Op :=
  [Op.connect "A", Op.connect "B",
   Op.join "A" (some "AAAA-AAAA") (some "Alice") 0,
   Op.join "B" (some "AAAA-AAAA") none 0,
   Op.chat "B" "hi" "10:00"]

/-- C9 counterexample: B joined without a name.  The participant record
holds "Anonymous" (visible in the existing-user notice to B), but the
user-joined notification delivered to A and the relayed chat message
carry the raw absent name, not "Anonymous" — refuting the claim that
the default is used everywhere the name is observable. -/
theorem C9_counterexample :
    (runTrace initState c9ops).map (fun r => r.2) =
      some [[], [],
        [Delivery.mk "A" (Msg.roomJoined "AAAA-AAAA" 1 true)],
        [Delivery.mk "B" (Msg.roomJoined "AAAA-AAAA" 2 false),
         Delivery.mk "A" (Msg.userJoined "B" none),
         Delivery.mk "B" (Msg.existingUser "A" "Alice")],
        [Delivery.mk "A" (Msg.chatMsg "hi" none "10:00")]] := by decide

/-! ### Claim C4 -/

/-- C4: the REST/join round trip.  After the create endpoint runs, the
status check for the generated code reports participantCount 0 and
isFull false; after one join it reports 1 and false; after a second
join by a different connection it reports 2 and true; a third join
attempt is answered with room-full, the state is unchanged, and the
count remains 2. -/
theorem C4_round_trip (st : ServerState) (p0 p1 p2 p3 p4 p5 p6 p7 : Nat)
    (nowC nA nB nC : Nat) (a b c : String) (unA unB unC : Option String)
    (hab : a ≠ b) :
    getRoomStatus (createRoomPost st p0 p1 p2 p3 p4 p5 p6 p7 nowC).1
        (generateRoomCode p0 p1 p2 p3 p4 p5 p6 p7) = some (0, false) ∧
    ∃ st2 ds2,
      joinRoom (createRoomPost st p0 p1 p2 p3 p4 p5 p6 p7 nowC).1 a
          ⟨some (generateRoomCode p0 p1 p2 p3 p4 p5 p6 p7), unA⟩ nA =
        Except.ok (st2, ds2) ∧
      getRoomStatus st2 (generateRoomCode p0 p1 p2 p3 p4 p5 p6 p7) =
        some (1, false) ∧
      ∃ st3 ds3,
        joinRoom st2 b ⟨some (generateRoomCode p0 p1 p2 p3 p4 p5 p6 p7), unB⟩ nB =
          Except.ok (st3, ds3) ∧
        getRoomStatus st3 (generateRoomCode p0 p1 p2 p3 p4 p5 p6 p7) =
          some (2, true) ∧
        joinRoom st3 c ⟨some (generateRoomCode p0 p1 p2 p3 p4 p5 p6 p7), unC⟩ nC =
          Except.ok (st3, [⟨c, Msg.roomFull fullMessage⟩]) ∧
        getRoomStatus st3 (generateRoomCode p0 p1 p2 p3 p4 p5 p6 p7) =
          some (2, true) := by
  set g := generateRoomCode p0 p1 p2 p3 p4 p5 p6 p7 with hgdef
  have hup : jsUpper g = g := generateRoomCode_upper p0 p1 p2 p3 p4 p5 p6 p7
  have hl1 : lookupRoom (createRoomPost st p0 p1 p2 p3 p4 p5 p6 p7 nowC).1.rooms g =
      some (Room.mk [] nowC) := lookupRoom_setRoom_self st.rooms g (Room.mk [] nowC)
  have hjA := @joinRoom_first (createRoomPost st p0 p1 p2 p3 p4 p5 p6 p7 nowC).1
    a g unA nA (Room.mk [] nowC)
    (by rw [hup]; exact hl1) rfl
  refine ⟨?_, _, _, hjA, ?_, ?_⟩
  · rw [getRoomStatus_of_lookup hup hl1]
    rfl
  · rw [getRoomStatus_of_lookup hup (by
      rw [hup]
      exact lookupRoom_setRoom_self _ _ _)]
    rfl
  · have hjB := @joinRoom_second
      (ServerState.mk
        (setRoom (createRoomPost st p0 p1 p2 p3 p4 p5 p6 p7 nowC).1.rooms (jsUpper g)
          (Room.mk [Participant.mk a (jsOr unA "Anonymous")] nowC))
        (updSock
          (updSock (createRoomPost st p0 p1 p2 p3 p4 p5 p6 p7 nowC).1.socks a
            (fun s => { s with joinedRooms := s.joinedRooms ++ [jsUpper g] }))
          a
          (fun s => { s with roomCode := some (jsUpper g), userName := unA })))
      b g unB nB
      (Room.mk [Participant.mk a (jsOr unA "Anonymous")] nowC)
      (Participant.mk a (jsOr unA "Anonymous"))
      (lookupRoom_setRoom_self _ _ _) rfl hab
    refine ⟨_, _, hjB, ?_, ?_, ?_⟩
    · rw [getRoomStatus_of_lookup hup (by
        rw [hup]
        exact lookupRoom_setRoom_self _ _ _)]
      rfl
    · exact joinRoom_full (lookupRoom_setRoom_self _ _ _) (Nat.le_refl 2)
    · rw [getRoomStatus_of_lookup hup (by
        rw [hup]
        exact lookupRoom_setRoom_self _ _ _)]
      rfl

theorem C4_round_trip_witness :
    getRoomStatus (createRoomPost initState 0 0 0 0 0 0 0 0 1).1
        (generateRoomCode 0 0 0 0 0 0 0 0) = some (0, false) ∧
    ∃ st2 ds2,
      joinRoom (createRoomPost initState 0 0 0 0 0 0 0 0 1).1 "A"
          ⟨some (generateRoomCode 0 0 0 0 0 0 0 0), some "Al"⟩ 2 =
        Except.ok (st2, ds2) ∧
      getRoomStatus st2 (generateRoomCode 0 0 0 0 0 0 0 0) = some (1, false) ∧
      ∃ st3 ds3,
        joinRoom st2 "B" ⟨some (generateRoomCode 0 0 0 0 0 0 0 0), some "Bo"⟩ 3 =
          Except.ok (st3, ds3) ∧
        getRoomStatus st3 (generateRoomCode 0 0 0 0 0 0 0 0) = some (2, true) ∧
        joinRoom st3 "C" ⟨some (generateRoomCode 0 0 0 0 0 0 0 0), some "Cy"⟩ 4 =
          Except.ok (st3, [⟨"C", Msg.roomFull fullMessage⟩]) ∧
        getRoomStatus st3 (generateRoomCode 0 0 0 0 0 0 0 0) = some (2, true) := by
  exact C4_round_trip initState 0 0 0 0 0 0 0 0 1 2 3 4 "A" "B" "C"
    (some "Al") (some "Bo") (some "Cy") (by decide)
